import Mathlib

/-!
Verification of the hook-sql query-compilation engine.

This file shallowly embeds the two source modules of the repository:

* `hook.py` — `build_hooks`, `build_hook_cte`, `build_validity_cte`,
  `build_query`: they construct sqlglot expression trees by parsing SQL
  text in the "fabric" (T-SQL) dialect.  We embed the parsed trees
  directly as an inductive `SqlExpr` / `SelectStmt` / `HookQuery` AST,
  following the shapes shown in the source's own doctests (in
  particular, parsing `CONCAT_WS(...)` in the fabric dialect wraps each
  argument in `COALESCE(arg, '')`, as the doctests of
  `build_validity_cte` and `build_query` display).

* `core.py` — `build_queries`: the manifest-driven orchestration.
  Manifest entries are Python dicts, so the embedded `TableSpec` keeps
  each key as an `Option` field (`none` = key absent, a lookup of an
  absent key is a `KeyError`), and the `managed` value is a dynamic
  `PyVal` so that the source's `spec.get("managed") is True` test is
  represented exactly.  Rendering to SQL text (`as_sql`, `dialect`,
  `identify`) and file export (`export_path`) are outside the embedding:
  the `query` fields hold the abstract query trees.

On top of the AST we give the T-SQL evaluation semantics of exactly the
expression forms the generator emits, over one window partition (a list
of rows in the window order: `ORDER BY _record__loaded_at` ascending,
NULLs first, as T-SQL orders them).  SQL NULL is `Option.none`;
timestamps are modelled as strings whose lexicographic order agrees with
chronological order for the fixed-format literals involved (`LEAST`
ignores NULL arguments in T-SQL, returning NULL only when all arguments
are NULL).
-/

/-- A dynamic (Python) value, used for manifest fields whose exact
runtime type matters to the source, e.g. `spec.get("managed") is True`
distinguishes the boolean `True` from the integer `1` and the string
`"true"`. -/
inductive PyVal where
  | vNone : PyVal
  | vBool : Bool → PyVal
  | vInt : Int → PyVal
  | vStr : String → PyVal
deriving DecidableEq, Repr

/-- A hook specification, as read by `build_hooks` (hook.py lines
26-29): the `name`, `keyset` and `expression` keys.  The `concept` key
of the manifest is never read by the query builders and is omitted. -/
structure HookSpec where
  name : String
  keyset : String
  expression : String
deriving DecidableEq, Repr

/-- A manifest entry (a Python dict).  Each field is `none` when the key
is absent; `core.build_queries` reads `table`, `schema`, `database` with
`spec[...]` (KeyError on absence) and `grain`, `columns`, `hooks`,
`managed` with `spec.get(...)` (default on absence). -/
structure TableSpec where
  database? : Option String
  schema? : Option String
  table? : Option String
  grain? : Option (List String)
  columns? : Option (List (String × String))
  hooks? : Option (List HookSpec)
  invalidateHardDeletes? : Option PyVal
  managed? : Option PyVal
deriving DecidableEq, Repr

/-- A sqlglot table reference `exp.Table(this, db, catalog)`:
`db`/`catalog` are absent for bare CTE references such as
`exp.Table(this="cte__hook")` (hook.py line 319). -/
structure TableRef where
  name : String
  db : Option String
  catalog : Option String
deriving DecidableEq, Repr

/-- Lexicographic comparison of character lists (by code point), the
order in which the SQL engine compares the fixed-format timestamp
literals of the generated queries: on strings of the canonical
`YYYY-MM-DD hh:mm:ss[.ffffff]` shape it agrees with chronological
order. -/
def listLtB : List Char → List Char → Bool
  | [], [] => false
  | [], _ :: _ => true
  | _ :: _, [] => false
  | a :: as, b :: bs =>
      if a.toNat < b.toNat then true
      else if b.toNat < a.toNat then false
      else listLtB as bs

/-- Strict lexicographic order on strings (computable). -/
def strLtB (a b : String) : Bool := listLtB a.data b.data

/-- Non-strict lexicographic order on strings. -/
def strLeB (a b : String) : Bool := !(strLtB b a)

/-- The smaller of two strings in lexicographic order, the meaning of a
binary SQL `LEAST` on non-NULL operands. -/
def strMin (a b : String) : String := if strLeB a b then a else b

/-- The expression forms occurring in the trees built by hook.py.
Window expressions carry their `PARTITION BY` column list and `ORDER BY`
column exactly as the generated SQL text does. -/
inductive SqlExpr where
  | col : String → SqlExpr
  | strLit : String → SqlExpr
  | intLit : Int → SqlExpr
  | castDT : String → SqlExpr
  | concatOp : SqlExpr → SqlExpr → SqlExpr
  | isNull : SqlExpr → SqlExpr
  | isNotNull : SqlExpr → SqlExpr
  | caseWhen : SqlExpr → SqlExpr → SqlExpr
  | caseWhenElse : SqlExpr → SqlExpr → SqlExpr → SqlExpr
  | coalesce : List SqlExpr → SqlExpr
  | least : List SqlExpr → SqlExpr
  | lagOver : String → List String → String → SqlExpr
  | leadOver : String → List String → String → SqlExpr
  | rowNumberOver : List String → String → SqlExpr
  | concatWs : String → List SqlExpr → SqlExpr
  | between : SqlExpr → SqlExpr → SqlExpr → SqlExpr
  | intEq : Int → Int → SqlExpr
  | sqlAlias : SqlExpr → String → SqlExpr
  | star : SqlExpr

/-- The alias of a projected expression, when it has one. -/
def aliasName : SqlExpr → Option String
  | .sqlAlias _ n => some n
  | _ => none

/-- A `SELECT <projections> FROM <source>` statement, the shape produced
by `exp.select(...).from_(table)` in hook.py. -/
structure SelectStmt where
  projections : List SqlExpr
  source : TableRef

/-- The query returned by `hook.build_query`:
`WITH cte__hook AS (...), cte__validity AS (...) SELECT * FROM
cte__validity WHERE <filter>` (hook.py lines 331-343).  The final
`SELECT * FROM cte__validity` is fixed in the source template, so only
the two CTE bodies and the filter vary. -/
structure HookQuery where
  cteHook : SelectStmt
  cteValidity : SelectStmt
  whereFilter : SqlExpr

/-! ## hook.py: the query builders -/

/-- The hook expression synthesized for one `HookSpec` (hook.py lines
30-33): the tree parsed from
`CASE WHEN {expression} IS NOT NULL THEN '{keyset}|' + {expression} END
AS {name}` in the fabric dialect.  The scalar `expression` text is kept
opaque as a reference (`SqlExpr.col`); the evaluation environment maps
such reference texts to their (nullable) values. -/
def hookExprOf (h : HookSpec) : SqlExpr :=
  .sqlAlias
    (.caseWhen (.isNotNull (.col h.expression))
      (.concatOp (.strLit (h.keyset ++ "|")) (.col h.expression)))
    h.name

/-- `build_hooks` (hook.py lines 3-37): one CASE expression per hook, in
the given order, with no deduplication of names. -/
def build_hooks (hooks : List HookSpec) : List SqlExpr :=
  hooks.map hookExprOf

/-- `build_hook_cte` (hook.py lines 39-81): the hook expressions
followed by a wildcard, selected from the source table. -/
def build_hook_cte (source_table : TableRef) (hooks : List HookSpec) : SelectStmt :=
  ⟨build_hooks hooks ++ [.star], source_table⟩

/-- The `_record__valid_from` projection of `build_validity_cte`
(hook.py lines 142-154). -/
def validFromExpr (grain : List String) : SqlExpr :=
  .sqlAlias
    (.coalesce [.lagOver "_record__loaded_at" grain "_record__loaded_at",
                .castDT "1970-01-01 00:00:00"])
    "_record__valid_from"

/-- The `_record__valid_to` projection of `build_validity_cte` (hook.py
lines 156-171). -/
def validToExpr (grain : List String) : SqlExpr :=
  .sqlAlias
    (.coalesce [.least [.col "_record__hash_removed_at",
                        .leadOver "_record__loaded_at" grain "_record__loaded_at"],
                .castDT "9999-12-31 23:59:59.999999"])
    "_record__valid_to"

/-- The `_record__version` projection of `build_validity_cte` (hook.py
lines 172-180). -/
def versionExpr (grain : List String) : SqlExpr :=
  .sqlAlias (.rowNumberOver grain "_record__loaded_at") "_record__version"

/-- The `_record__is_current` projection of `build_validity_cte`
(hook.py lines 182-194). -/
def isCurrentExpr (grain : List String) : SqlExpr :=
  .sqlAlias
    (.caseWhenElse (.isNull (.leadOver "_record__loaded_at" grain "_record__loaded_at"))
      (.intLit 1) (.intLit 0))
    "_record__is_current"

/-- The `_record__updated_at` projection of `build_validity_cte`
(hook.py lines 196-211). -/
def updatedAtExpr (grain : List String) : SqlExpr :=
  .sqlAlias
    (.coalesce [.least [.col "_record__hash_removed_at",
                        .leadOver "_record__loaded_at" grain "_record__loaded_at"],
                .col "_record__loaded_at"])
    "_record__updated_at"

/-- The `_record__uid` projection of `build_validity_cte` (hook.py lines
213-218): `CONCAT_WS('|', <grain columns>, _record__loaded_at)`.  The
fabric-dialect parse wraps each argument in `COALESCE(arg, '')`, as the
source's own doctests display (hook.py lines 136 and 303), so a NULL
argument contributes an empty string while keeping its separator
position. -/
def uidExpr (grain : List String) : SqlExpr :=
  .sqlAlias
    (.concatWs "|"
      (grain.map (fun g => .coalesce [.col g, .strLit ""]) ++
        [.coalesce [.col "_record__loaded_at", .strLit ""]]))
    "_record__uid"

/-- `build_validity_cte` (hook.py lines 83-230): the wildcard followed
by the six derived window projections, selected from `from_table`. -/
def build_validity_cte (from_table : TableRef) (grain : List String) : SelectStmt :=
  ⟨[.star, validFromExpr grain, validToExpr grain, versionExpr grain,
    isCurrentExpr grain, updatedAtExpr grain, uidExpr grain],
   from_table⟩

/-- The WHERE filter of `build_query` (hook.py lines 323-329): the
tautology `1=1` unless both `start_ts` and `end_ts` are truthy in
Python's sense (present and non-empty), in which case
`{time_column} BETWEEN CAST('{start_ts}' AS DATETIME(6)) AND
CAST('{end_ts}' AS DATETIME(6))`. -/
def buildWhere (time_column : String) : Option String → Option String → SqlExpr
  | some s, some e =>
      if s = "" ∨ e = "" then .intEq 1 1
      else .between (.col time_column) (.castDT s) (.castDT e)
  | _, _ => .intEq 1 1

/-- `build_query` (hook.py lines 232-345): stage one is the hook CTE
over the source table, stage two the validity CTE over `cte__hook`, and
the final statement selects `*` from `cte__validity` under the optional
time filter.  (The source renders the two CTEs to text and re-parses the
assembled WITH-statement; that round trip preserves the trees, so the
assembly is modelled structurally.) -/
def build_query (source_table : TableRef) (hooks : List HookSpec) (grain : List String)
    (time_column : String) (start_ts end_ts : Option String) : HookQuery :=
  ⟨build_hook_cte source_table hooks,
   build_validity_cte ⟨"cte__hook", none, none⟩ grain,
   buildWhere time_column start_ts end_ts⟩

/-! ## core.py: the manifest compiler -/

/-- Modelled from the spec: `hook.build_hook_query` is called by
`core.build_queries` (core.py lines 240-248) with the source table, the
hooks and the grain, but it is not among the definitions of the hook.py
under src.  Per §4.5 step 1 it builds the §4.4 hook query with the
time-column-based filtering not engaged (full rebuild semantics, no
bounds); under empty bounds the time column is immaterial, and
`_record__updated_at` follows the §4.4 usage example. -/
def build_hook_query (source_table : TableRef) (hooks : List HookSpec)
    (grain : List String) : HookQuery :=
  build_query source_table hooks grain "_record__updated_at" none none

/-- Modelled from the spec: the external bridge-builder collaborator
`uss.build_bridge_query(manifest, source_table)` (spec §6), not under
src.  It consumes the full manifest and the hook-table reference and
returns a query reading from that reference; the embedding records
exactly those inputs. -/
structure BridgeQuery where
  manifest : List (String × TableSpec)
  sourceTable : TableRef

/-- Modelled from the spec: the external peripheral-builder collaborator
`uss.build_peripheral_query(source_table, source_columns)` (spec §6),
not under src.  It consumes the hook-table reference and the declared
columns and returns a query reading from that reference. -/
structure PeripheralQuery where
  sourceTable : TableRef
  sourceColumns : List (String × String)

/-- See `BridgeQuery`. -/
def build_bridge_query (manifest : List (String × TableSpec))
    (source_table : TableRef) : BridgeQuery :=
  ⟨manifest, source_table⟩

/-- See `PeripheralQuery`. -/
def build_peripheral_query (source_table : TableRef)
    (source_columns : List (String × String)) : PeripheralQuery :=
  ⟨source_table, source_columns⟩

/-- The three query kinds held by artifact descriptors. -/
inductive Query where
  | hookQ : HookQuery → Query
  | bridgeQ : BridgeQuery → Query
  | peripheralQ : PeripheralQuery → Query

/-- One artifact descriptor of `build_queries` (core.py lines 271-290):
target names plus the query, which is `none` for the hook artifact of an
unmanaged table.  (Rendering the tree to SQL text when `as_sql` is set
is outside the embedding; `query` holds the tree.) -/
structure ArtifactDescriptor where
  target_database : String
  target_schema : String
  target_table : String
  query : Option Query

/-- The per-table result of `build_queries`: the `hook`, `uss_bridge`
and `uss_peripheral` descriptors. -/
structure CompiledArtifactSet where
  hook : ArtifactDescriptor
  uss_bridge : ArtifactDescriptor
  uss_peripheral : ArtifactDescriptor

/-- The keyword options of `build_queries` (core.py lines 97-107) that
shape the result.  `as_sql`, `dialect`, `identify` only control
rendering to text and `export_path` only controls file export, so they
are outside the embedding.  The source defaults are
`("silver", "hook", "gold", "uss")`. -/
structure BuildOpts where
  hook_target_db : String
  hook_target_schema : String
  uss_target_db : String
  uss_target_schema : String

/-- The source's default options. -/
def defaultOpts : BuildOpts := ⟨"silver", "hook", "gold", "uss"⟩

/-- The error raised by compiling one table: a Python `KeyError` on a
missing required dict key (core.py lines 242-244 access
`spec["table"]`, `spec["schema"]`, `spec["database"]`, in that
keyword-argument order). -/
inductive BuildErr where
  | keyErr : String → BuildErr
deriving DecidableEq, Repr

/-- `spec[k]`: the value when the key is present, `KeyError` when
absent. -/
def keyOr (k : String) : Option String → Except BuildErr String
  | some v => .ok v
  | none => .error (.keyErr k)

/-- The source's `spec.get("managed") is True` (core.py line 239): true
only for the exact Python boolean `True`; absent keys, `None`, `1`,
`"true"`, `False` all fail the identity test. -/
def managedIsTrue : Option PyVal → Bool
  | some (.vBool true) => true
  | _ => false

/-- First-class association-list lookup standing for Python dict
indexing of the manifest and of the result mapping. -/
def alookup {α : Type} (k : String) : List (String × α) → Option α
  | [] => none
  | (k', v) :: rest => if k = k' then some v else alookup k rest

/-- Whether an `Except` computation succeeded (no exception escaped). -/
def exceptOk {ε α : Type} : Except ε α → Bool
  | .ok _ => true
  | .error _ => false

/-- The body of the per-table loop of `build_queries` (core.py lines
235-290): build the hook query when `spec.get("managed") is True`
(raising `KeyError` if `table`/`schema`/`database` is missing), then the
bridge and peripheral queries over the named hook target location
`hook_target_db.hook_target_schema.<table_name>`, and assemble the three
descriptors. -/
def compileEntry (o : BuildOpts) (full : List (String × TableSpec))
    (t : String) (spec : TableSpec) : Except BuildErr CompiledArtifactSet :=
  (if managedIsTrue spec.managed? then
      (keyOr "table" spec.table?).bind fun tb =>
        (keyOr "schema" spec.schema?).bind fun sch =>
          (keyOr "database" spec.database?).map fun db =>
            some (Query.hookQ (build_hook_query ⟨tb, some sch, some db⟩
              (spec.hooks?.getD []) (spec.grain?.getD [])))
    else .ok none).map fun hookQuery =>
    ⟨⟨o.hook_target_db, o.hook_target_schema, t, hookQuery⟩,
     ⟨o.uss_target_db, o.uss_target_schema, "_bridge__" ++ t,
      some (Query.bridgeQ (build_bridge_query full
        ⟨t, some o.hook_target_schema, some o.hook_target_db⟩))⟩,
     ⟨o.uss_target_db, o.uss_target_schema, t,
      some (Query.peripheralQ (build_peripheral_query
        ⟨t, some o.hook_target_schema, some o.hook_target_db⟩
        (spec.columns?.getD [])))⟩⟩

/-- The sequential loop of `build_queries`: entries are compiled in
manifest order and the first exception aborts the whole call, exactly as
an uncaught Python exception would. -/
def buildQueriesGo (o : BuildOpts) (full : List (String × TableSpec)) :
    List (String × TableSpec) → Except BuildErr (List (String × CompiledArtifactSet))
  | [] => .ok []
  | (t, spec) :: rest =>
      (compileEntry o full t spec).bind fun set =>
        (buildQueriesGo o full rest).map fun tail => (t, set) :: tail

/-- `build_queries` (core.py lines 97-295): the ordered mapping from
table name to its compiled artifact set. -/
def buildQueries (manifest : List (String × TableSpec)) (o : BuildOpts) :
    Except BuildErr (List (String × CompiledArtifactSet)) :=
  buildQueriesGo o manifest manifest

/-! ## Evaluation semantics of the generated expressions

The window projections of `build_validity_cte` are computed per grain
partition.  A `Row` maps column (or opaque scalar-expression) names to
nullable string values; a partition is the list of its rows in the
window order (`ORDER BY _record__loaded_at` ascending, NULLs first, as
T-SQL sorts them), which is the single order shared by `LAG`, `LEAD`
and `ROW_NUMBER` here since all their OVER clauses are identical. -/

/-- A row: an association of column names to nullable values. -/
def Row : Type := List (String × Option String)

instance : DecidableEq Row :=
  inferInstanceAs (DecidableEq (List (String × Option String)))

/-- The value of a column on a row (NULL for an absent name). -/
def Row.get (r : Row) (c : String) : Option String :=
  (alookup c r).getD none

/-- The implicit audit column `_record__loaded_at` of a row. -/
def Row.loadedAt (r : Row) : Option String :=
  Row.get r "_record__loaded_at"

/-- The implicit audit column `_record__hash_removed_at` of a row. -/
def Row.removedAt (r : Row) : Option String :=
  Row.get r "_record__hash_removed_at"

/-- `LEAD(_record__loaded_at)` at position `i` of a partition: the next
row's load timestamp, NULL when there is no next row or its value is
NULL. -/
def leadLoadedAt (part : List Row) (i : Nat) : Option String :=
  (part.get? (i + 1)).bind (fun r => Row.get r "_record__loaded_at")

/-- `COALESCE`: the first non-NULL argument value, else NULL. -/
def coalesceVals (vs : List (Option String)) : Option String :=
  vs.findSome? id

/-- T-SQL `LEAST`: NULL arguments are ignored; NULL results only when
every argument is NULL. -/
def leastVals (vs : List (Option String)) : Option String :=
  match vs.filterMap id with
  | [] => none
  | x :: xs => some (xs.foldl strMin x)

/-- Binary null-ignoring minimum, the meaning of the generated
`LEAST(a, b)`. -/
def tsqlLeast2 (a b : Option String) : Option String :=
  match a, b with
  | none, none => none
  | some x, none => some x
  | none, some y => some y
  | some x, some y => some (strMin x y)

mutual

/-- Value of an expression at position `i` of a partition.  Numeric
values are carried as their decimal strings; predicate forms in value
position do not occur in the generated trees and evaluate to NULL. -/
def evalExpr (part : List Row) (i : Nat) : SqlExpr → Option String
  | .col c => (part.get? i).bind (fun r => Row.get r c)
  | .strLit s => some s
  | .intLit n => some (toString n)
  | .castDT s => some s
  | .concatOp a b =>
      match evalExpr part i a, evalExpr part i b with
      | some x, some y => some (x ++ y)
      | _, _ => none
  | .isNull _ => none
  | .isNotNull _ => none
  | .caseWhen c t => if evalPred part i c then evalExpr part i t else none
  | .caseWhenElse c t e =>
      if evalPred part i c then evalExpr part i t else evalExpr part i e
  | .coalesce args => coalesceVals (evalArgs part i args)
  | .least args => leastVals (evalArgs part i args)
  | .lagOver c _ _ =>
      match i with
      | 0 => none
      | j + 1 => (part.get? j).bind (fun r => Row.get r c)
  | .leadOver c _ _ => (part.get? (i + 1)).bind (fun r => Row.get r c)
  | .rowNumberOver _ _ => some (toString (i + 1))
  | .concatWs sep args =>
      some (String.intercalate sep ((evalArgs part i args).filterMap id))
  | .between _ _ _ => none
  | .intEq _ _ => none
  | .sqlAlias e _ => evalExpr part i e
  | .star => none

/-- Truth of a predicate at position `i` of a partition (SQL UNKNOWN
filters like false). -/
def evalPred (part : List Row) (i : Nat) : SqlExpr → Bool
  | .isNull e => (evalExpr part i e).isNone
  | .isNotNull e => (evalExpr part i e).isSome
  | .between e lo hi =>
      match evalExpr part i e, evalExpr part i lo, evalExpr part i hi with
      | some x, some a, some b => strLeB a x && strLeB x b
      | _, _, _ => false
  | .intEq a b => a == b
  | _ => false

/-- Values of a list of argument expressions. -/
def evalArgs (part : List Row) (i : Nat) : List SqlExpr → List (Option String)
  | [] => []
  | e :: es => evalExpr part i e :: evalArgs part i es

end

/-- The T-SQL window order on rows: ascending load timestamp, NULLs
first. -/
def tsLeB : Option String → Option String → Bool
  | none, _ => true
  | some _, none => false
  | some a, some b => strLeB a b

/-- A row list is in window order when every earlier row's load
timestamp precedes (NULLs first) every later one's — the order in which
the engine feeds the partition to `LAG`/`LEAD`/`ROW_NUMBER`. -/
def windowOrderedB : List Row → Bool
  | [] => true
  | r :: rest =>
      rest.all (fun s => tsLeB (Row.loadedAt r) (Row.loadedAt s)) && windowOrderedB rest

/-- Whether the row at position `i` is flagged `_record__is_current = 1`
by the generated CASE expression. -/
def isCurrentRow (grain : List String) (part : List Row) (i : Nat) : Bool :=
  evalExpr part i (isCurrentExpr grain) == some "1"

/-- How many rows of a partition are flagged current. -/
def currentCount (grain : List String) (part : List Row) : Nat :=
  (List.range part.length).countP (fun i => isCurrentRow grain part i)

/-- The infinite validity sentinel of `_record__valid_to`. -/
def sentinelTs : String := "9999-12-31 23:59:59.999999"

/-- The deterministic uid value: the grain values then the load
timestamp, NULLs replaced by the empty string, joined by the fixed
separator. -/
def uidOf (gs : List (Option String)) (l : Option String) : String :=
  String.intercalate "|" (gs.map (fun v => v.getD "") ++ [l.getD ""])

/-! ## Shared helper lemmas -/

/-- A concrete source-table reference used by concrete inputs. -/
def ordersRef : TableRef := ⟨"orders", some "northwind", some "bronze"⟩

/-- A row whose removal timestamp is the sentinel value itself. -/
def c3RowSent : Row :=
  [("_record__loaded_at", some "2023-01-01 00:00:00"),
   ("_record__hash_removed_at", some sentinelTs)]

/-- A row with a NULL load timestamp and no removal timestamp. -/
def c3RowNull : Row := [("_record__loaded_at", (none : Option String))]

/-- A concrete row loaded at a given timestamp. -/
def c4Row (ts : String) : Row := [("_record__loaded_at", some ts)]

/-- A row with a NULL load timestamp, for the C4 counterexample. -/
def c4RowNull : Row := [("_record__loaded_at", (none : Option String))]

/-- A concrete hook list for the managed example table. -/
def c1Hooks : List HookSpec := [⟨"_HK__order", "northwind:order", "id"⟩]

/-- A concrete well-formed managed manifest entry. -/
def c1Spec : TableSpec :=
  ⟨some "bronze", some "northwind", some "orders", some ["_HK__order"],
   some [("id", "int")], some c1Hooks, some (.vBool true), some (.vBool true)⟩

/-- A one-table manifest holding the managed entry. -/
def c1Manifest : List (String × TableSpec) := [("northwind__orders", c1Spec)]

/-- The compiled artifact set `build_queries` produces for
`c1Manifest` under the default options. -/
def c1Set : CompiledArtifactSet :=
  ⟨⟨"silver", "hook", "northwind__orders",
    some (.hookQ (build_hook_query ordersRef c1Hooks ["_HK__order"]))⟩,
   ⟨"gold", "uss", "_bridge__northwind__orders",
    some (.bridgeQ (build_bridge_query c1Manifest
      ⟨"northwind__orders", some "hook", some "silver"⟩))⟩,
   ⟨"gold", "uss", "northwind__orders",
    some (.peripheralQ (build_peripheral_query
      ⟨"northwind__orders", some "hook", some "silver"⟩ [("id", "int")]))⟩⟩

/-- The full result of `build_queries` on `c1Manifest`. -/
def c1Res : List (String × CompiledArtifactSet) := [("northwind__orders", c1Set)]

/-- The filter of the hook query that `build_queries` produces for the
managed table of `c1Manifest`, as a function of every option the
orchestration layer accepts. -/
def c1Filter (o : BuildOpts) : Option SqlExpr :=
  match buildQueries c1Manifest o with
  | .ok ((_, set) :: _) =>
      match set.hook.query with
      | some (.hookQ q) => some q.whereFilter
      | _ => none
  | _ => none

/-- A managed manifest entry with the required `table` key missing. -/
def c6Bad : TableSpec :=
  ⟨some "bronze", some "northwind", none, some ["h"], some [],
   some [⟨"h", "k", "id"⟩], some (.vBool true), some (.vBool true)⟩

/-- A manifest whose well-formed managed entry precedes a malformed
one. -/
def c6Manifest : List (String × TableSpec) :=
  [("good_table", c1Spec), ("bad_table", c6Bad)]

/-- A managed manifest entry with an empty hook list. -/
def c6NoHooks : TableSpec :=
  ⟨some "bronze", some "northwind", some "empty", some ["h"], some [],
   some [], some (.vBool true), some (.vBool true)⟩

/-- A concrete unmanaged (`managed=false`) manifest entry. -/
def c9Spec : TableSpec :=
  ⟨some "bronze", some "northwind", some "customers", some ["_HK__customer"],
   some [("id", "int")], some [⟨"_HK__customer", "northwind:customer", "id"⟩],
   some (.vBool true), some (.vBool false)⟩

/-- A one-table manifest holding the unmanaged entry. -/
def c9Manifest : List (String × TableSpec) := [("northwind__customers", c9Spec)]

/-- The compiled artifact set for the unmanaged entry: no hook query,
bridge and peripheral over the named hook target location. -/
def c9Set : CompiledArtifactSet :=
  ⟨⟨"silver", "hook", "northwind__customers", none⟩,
   ⟨"gold", "uss", "_bridge__northwind__customers",
    some (.bridgeQ (build_bridge_query c9Manifest
      ⟨"northwind__customers", some "hook", some "silver"⟩))⟩,
   ⟨"gold", "uss", "northwind__customers",
    some (.peripheralQ (build_peripheral_query
      ⟨"northwind__customers", some "hook", some "silver"⟩ [("id", "int")]))⟩⟩

/-- The full result of `build_queries` on `c9Manifest`. -/
def c9Res : List (String × CompiledArtifactSet) := [("northwind__customers", c9Set)]

/-- A manifest entry whose `managed` is the truthy integer `1`, not the
boolean `True`. -/
def c10Spec : TableSpec :=
  ⟨some "bronze", some "northwind", some "regions", some ["_HK__region"],
   some [("id", "int")], some [⟨"_HK__region", "northwind:region", "id"⟩],
   some (.vBool true), some (.vInt 1)⟩

/-- A one-table manifest holding the `managed=1` entry. -/
def c10Manifest : List (String × TableSpec) := [("northwind__regions", c10Spec)]

/-- The compiled artifact set for the `managed=1` entry: the identity
test fails, so no hook query is built. -/
def c10Set : CompiledArtifactSet :=
  ⟨⟨"silver", "hook", "northwind__regions", none⟩,
   ⟨"gold", "uss", "_bridge__northwind__regions",
    some (.bridgeQ (build_bridge_query c10Manifest
      ⟨"northwind__regions", some "hook", some "silver"⟩))⟩,
   ⟨"gold", "uss", "northwind__regions",
    some (.peripheralQ (build_peripheral_query
      ⟨"northwind__regions", some "hook", some "silver"⟩ [("id", "int")]))⟩⟩

/-- The full result of `build_queries` on `c10Manifest`. -/
def c10Res : List (String × CompiledArtifactSet) := [("northwind__regions", c10Set)]

/-! ### C2: hook expression semantics -/

/-- C2.  For every hook spec, the synthesized hook expression evaluates
to NULL when the referenced expression is NULL, and to
`keyset ++ "|" ++ value` otherwise, and the expression is aliased with
the hook's name. -/
theorem C2_hook_expression_semantics (h : HookSpec) (part : List Row) (i : Nat) :
    evalExpr part i (hookExprOf h)
        = ((part.get? i).bind (fun r => Row.get r h.expression)).map
            (fun v => h.keyset ++ "|" ++ v)
      ∧ aliasName (hookExprOf h) = some h.name
      ∧ build_hooks [h] = [hookExprOf h] := by
  refine ⟨?_, rfl, rfl⟩
  show (if (evalExpr part i (.col h.expression)).isSome then
          match some (h.keyset ++ "|"), evalExpr part i (.col h.expression) with
          | some x, some y => some (x ++ y)
          | _, _ => none
        else none) = _
  cases hv : evalExpr part i (.col h.expression) with
  | none =>
      have hv' : (part.get? i).bind (fun r => Row.get r h.expression) = none := hv
      rw [hv']
      rfl
  | some x =>
      have hv' : (part.get? i).bind (fun r => Row.get r h.expression) = some x := hv
      rw [hv']
      rfl

/-! ### C5: the incremental time filter -/

/-- C5 (amended).  The final filter of `build_query` is the inclusive
`BETWEEN` interval on the time column, compared as `DATETIME(6)`, when
both bounds are supplied as non-empty strings; with a missing (`None`)
or empty bound the filter is the always-true tautology `1=1`. -/
theorem C5_filter_amended (st : TableRef) (hooks : List HookSpec) (grain : List String)
    (tc : String) (s e : String) (sts ets : Option String)
    (h1 : s ≠ "") (h2 : e ≠ "") :
    (build_query st hooks grain tc (some s) (some e)).whereFilter
        = .between (.col tc) (.castDT s) (.castDT e)
      ∧ (build_query st hooks grain tc none ets).whereFilter = .intEq 1 1
      ∧ (build_query st hooks grain tc sts none).whereFilter = .intEq 1 1
      ∧ (build_query st hooks grain tc (some "") ets).whereFilter = .intEq 1 1 := by
  refine ⟨?_, ?_, ?_, ?_⟩
  · simp [build_query, buildWhere, h1, h2]
  · rfl
  · cases sts <;> rfl
  · cases ets <;> simp [build_query, buildWhere]

/-- C5 witness: at concrete bounds the theorem's hypotheses hold and the
claimed filter shapes are produced. -/
theorem C5_filter_witness :
    (build_query ordersRef [] ["h"] "_record__updated_at"
        (some "2023-01-01 00:00:00") (some "2023-01-02 00:00:00")).whereFilter
        = .between (.col "_record__updated_at") (.castDT "2023-01-01 00:00:00")
            (.castDT "2023-01-02 00:00:00")
      ∧ (build_query ordersRef [] ["h"] "_record__updated_at" none none).whereFilter
        = .intEq 1 1
      ∧ (build_query ordersRef [] ["h"] "_record__updated_at"
          (some "2023-01-01 00:00:00") none).whereFilter = .intEq 1 1
      ∧ (build_query ordersRef [] ["h"] "_record__updated_at"
          (some "") none).whereFilter = .intEq 1 1 :=
  (C5_filter_amended ordersRef [] ["h"] "_record__updated_at"
      "2023-01-01 00:00:00" "2023-01-02 00:00:00" (some "2023-01-01 00:00:00") none
      (by decide) (by decide)).imp id
    (fun hrest => ⟨hrest.1, hrest.2.1, hrest.2.2⟩)

/-- C5 counterexample.  Both bounds are supplied (not `None`), yet
because `start_ts` is the empty string the Python truthiness test
`if start_ts and end_ts` fails and the filter degenerates to the
tautology instead of the claimed closed interval. -/
theorem C5_counterexample :
    (build_query ordersRef [] ["h"] "_record__updated_at"
        (some "") (some "2023-01-02 00:00:00")).whereFilter = SqlExpr.intEq 1 1
      ∧ (some "" : Option String) ≠ none
      ∧ (some "2023-01-02 00:00:00" : Option String) ≠ none
      ∧ SqlExpr.intEq 1 1 ≠ SqlExpr.between (.col "_record__updated_at")
          (.castDT "") (.castDT "2023-01-02 00:00:00") := by
  refine ⟨?_, by simp, by simp, fun hfalse => SqlExpr.noConfusion hfalse⟩
  simp [build_query, buildWhere]

/-! ### C3: the valid_to bound -/

/-- The generated `_record__valid_to` expression evaluates to the
null-ignoring minimum of the row's own removal timestamp and the LEAD
load value, falling back to the infinite sentinel when both are NULL. -/
theorem evalExpr_validTo (grain : List String) (part : List Row) (i : Nat) :
    evalExpr part i (validToExpr grain)
      = some ((tsqlLeast2 ((part.get? i).bind (fun r => Row.get r "_record__hash_removed_at"))
          (leadLoadedAt part i)).getD sentinelTs) := by
  show coalesceVals [leastVals [(part.get? i).bind (fun r => Row.get r "_record__hash_removed_at"),
          (part.get? (i + 1)).bind (fun r => Row.get r "_record__loaded_at")],
        some sentinelTs]
      = some ((tsqlLeast2 ((part.get? i).bind (fun r => Row.get r "_record__hash_removed_at"))
          ((part.get? (i + 1)).bind (fun r => Row.get r "_record__loaded_at"))).getD sentinelTs)
  cases hrv : (part.get? i).bind (fun r => Row.get r "_record__hash_removed_at") with
  | none =>
      cases hlv : (part.get? (i + 1)).bind (fun r => Row.get r "_record__loaded_at") with
      | none => rfl
      | some y => rfl
  | some x =>
      cases hlv : (part.get? (i + 1)).bind (fun r => Row.get r "_record__loaded_at") with
      | none => rfl
      | some y => rfl

/-- C3 (amended).  For every row of the validity output (position `i` of
a partition in window order), `valid_to` equals the null-ignoring
earlier of the row's own removal timestamp and the LEAD load value (the
load timestamp of the immediately following row, NULL when that row is
absent or its load timestamp is NULL), with the infinite sentinel when
both are absent; consequently the sentinel value is produced exactly
when both are absent or when that minimum itself equals the sentinel. -/
theorem C3_valid_to_amended (grain : List String) (part : List Row) (i : Nat) (r : Row)
    (hr : part.get? i = some r) (_hs : windowOrderedB part = true) :
    evalExpr part i (validToExpr grain)
        = some ((tsqlLeast2 (Row.removedAt r) (leadLoadedAt part i)).getD sentinelTs)
      ∧ (evalExpr part i (validToExpr grain) = some sentinelTs
          ↔ tsqlLeast2 (Row.removedAt r) (leadLoadedAt part i) = none
            ∨ tsqlLeast2 (Row.removedAt r) (leadLoadedAt part i) = some sentinelTs) := by
  have h1 := evalExpr_validTo grain part i
  rw [hr] at h1
  have h1' : evalExpr part i (validToExpr grain)
      = some ((tsqlLeast2 (Row.removedAt r) (leadLoadedAt part i)).getD sentinelTs) := h1
  refine ⟨h1', ?_⟩
  rw [h1']
  cases tsqlLeast2 (Row.removedAt r) (leadLoadedAt part i) with
  | none => simp
  | some m => simp

/-- C3 witness: a two-row partition where the first row's `valid_to` is
the next row's load timestamp (earlier than its own removal timestamp)
and the last row's `valid_to` is its removal timestamp, not the
sentinel. -/
theorem C3_valid_to_witness :
    evalExpr [([("_record__loaded_at", some "2023-01-01 00:00:00"),
                ("_record__hash_removed_at", some "2023-01-05 00:00:00")] : Row),
              ([("_record__loaded_at", some "2023-01-02 00:00:00")] : Row)] 0
        (validToExpr ["h"])
        = some ((tsqlLeast2 (Row.removedAt ([("_record__loaded_at", some "2023-01-01 00:00:00"),
            ("_record__hash_removed_at", some "2023-01-05 00:00:00")] : Row))
            (leadLoadedAt [([("_record__loaded_at", some "2023-01-01 00:00:00"),
                ("_record__hash_removed_at", some "2023-01-05 00:00:00")] : Row),
              ([("_record__loaded_at", some "2023-01-02 00:00:00")] : Row)] 0)).getD sentinelTs)
      ∧ (evalExpr [([("_record__loaded_at", some "2023-01-01 00:00:00"),
            ("_record__hash_removed_at", some "2023-01-05 00:00:00")] : Row),
          ([("_record__loaded_at", some "2023-01-02 00:00:00")] : Row)] 0 (validToExpr ["h"])
            = some sentinelTs
          ↔ tsqlLeast2 (Row.removedAt ([("_record__loaded_at", some "2023-01-01 00:00:00"),
              ("_record__hash_removed_at", some "2023-01-05 00:00:00")] : Row))
              (leadLoadedAt [([("_record__loaded_at", some "2023-01-01 00:00:00"),
                  ("_record__hash_removed_at", some "2023-01-05 00:00:00")] : Row),
                ([("_record__loaded_at", some "2023-01-02 00:00:00")] : Row)] 0) = none
            ∨ tsqlLeast2 (Row.removedAt ([("_record__loaded_at", some "2023-01-01 00:00:00"),
                ("_record__hash_removed_at", some "2023-01-05 00:00:00")] : Row))
                (leadLoadedAt [([("_record__loaded_at", some "2023-01-01 00:00:00"),
                    ("_record__hash_removed_at", some "2023-01-05 00:00:00")] : Row),
                  ([("_record__loaded_at", some "2023-01-02 00:00:00")] : Row)] 0)
              = some sentinelTs) :=
  C3_valid_to_amended ["h"]
    [([("_record__loaded_at", some "2023-01-01 00:00:00"),
       ("_record__hash_removed_at", some "2023-01-05 00:00:00")] : Row),
     ([("_record__loaded_at", some "2023-01-02 00:00:00")] : Row)] 0
    ([("_record__loaded_at", some "2023-01-01 00:00:00"),
      ("_record__hash_removed_at", some "2023-01-05 00:00:00")] : Row)
    (by decide) (by decide)

/-- C3 counterexample.  Two concrete partitions falsify "the sentinel is
produced exactly when neither a removal timestamp nor a following row
exists": (1) a single row whose removal timestamp is the sentinel value
gets `valid_to = sentinel` although a removal timestamp exists; (2) a
row followed by another row whose load timestamp is NULL gets
`valid_to = sentinel` although a following row exists. -/
theorem C3_counterexample :
    evalExpr [c3RowSent] 0 (validToExpr ["h"]) = some sentinelTs
      ∧ Row.removedAt c3RowSent = some sentinelTs
      ∧ windowOrderedB [c3RowSent] = true
      ∧ evalExpr [c3RowNull, c3RowNull] 0 (validToExpr ["h"]) = some sentinelTs
      ∧ ([c3RowNull, c3RowNull] : List Row).length = 2
      ∧ Row.removedAt c3RowNull = none
      ∧ windowOrderedB [c3RowNull, c3RowNull] = true := by
  decide

/-! ### C7: the uid projection -/

/-- `evalArgs` distributes over list append. -/
theorem evalArgs_append (part : List Row) (i : Nat) (l1 l2 : List SqlExpr) :
    evalArgs part i (l1 ++ l2) = evalArgs part i l1 ++ evalArgs part i l2 := by
  induction l1 with
  | nil => rfl
  | cons e es ih =>
      show evalExpr part i e :: evalArgs part i (es ++ l2) = _
      rw [ih]
      rfl

/-- Value of the COALESCE-wrapped grain columns of the uid expression:
each grain value with NULL replaced by the empty string. -/
theorem evalArgs_coalesce_cols (part : List Row) (i : Nat) (r : Row)
    (hr : part.get? i = some r) (grain : List String) :
    evalArgs part i (grain.map (fun g => .coalesce [.col g, .strLit ""]))
      = grain.map (fun g => some ((Row.get r g).getD "")) := by
  induction grain with
  | nil => rfl
  | cons g gs ih =>
      simp only [List.map_cons, evalArgs]
      rw [ih]
      congr 1
      show coalesceVals [(part.get? i).bind (fun r => Row.get r g), some ""] = _
      rw [hr]
      show coalesceVals [Row.get r g, some ""] = _
      cases hv : Row.get r g <;> rfl

/-- `filterMap id` undoes a `map` into `some`. -/
theorem filterMap_id_map_some {α β : Type} (f : α → β) (l : List α) :
    (l.map (fun a => some (f a))).filterMap id = l.map f := by
  induction l with
  | nil => rfl
  | cons a l ih => simp only [List.map_cons, List.filterMap_cons, ih, id]

/-- C7.  For every row of the validity output, the generated
`_record__uid` expression evaluates to the concatenation, with the fixed
separator, of the grain column values in grain order followed by the
load timestamp, each NULL substituted by the empty string — i.e. exactly
`uidOf` applied to the row's grain values and load timestamp, so `uid`
is a pure function of those inputs with one separator position per grain
column plus one for the load timestamp. -/
theorem C7_uid_semantics (grain : List String) (part : List Row) (i : Nat) (r : Row)
    (hr : part.get? i = some r) :
    evalExpr part i (uidExpr grain)
      = some (uidOf (grain.map (fun g => Row.get r g)) (Row.loadedAt r)) := by
  show some (String.intercalate "|"
      ((evalArgs part i (grain.map (fun g => .coalesce [.col g, .strLit ""]) ++
          [.coalesce [.col "_record__loaded_at", .strLit ""]])).filterMap id)) = _
  rw [evalArgs_append, evalArgs_coalesce_cols part i r hr grain]
  have htail : evalArgs part i [.coalesce [.col "_record__loaded_at", .strLit ""]]
      = [some ((Row.loadedAt r).getD "")] := by
    show [coalesceVals [(part.get? i).bind (fun s => Row.get s "_record__loaded_at"), some ""]]
        = _
    rw [hr]
    show [coalesceVals [Row.loadedAt r, some ""]] = _
    cases hv : Row.loadedAt r <;> rfl
  rw [htail, List.filterMap_append,
    filterMap_id_map_some (fun g => (Row.get r g).getD "") grain]
  simp only [uidOf, List.map_map]
  rfl

/-- C7 witness: on a concrete row the uid is the grain value, the
separator, then the load timestamp. -/
theorem C7_uid_witness :
    evalExpr [([("h", some "k|1"), ("_record__loaded_at", some "2023-01-01 00:00:00")] : Row)]
        0 (uidExpr ["h"])
      = some (uidOf (["h"].map (fun g =>
          Row.get ([("h", some "k|1"),
            ("_record__loaded_at", some "2023-01-01 00:00:00")] : Row) g))
          (Row.loadedAt ([("h", some "k|1"),
            ("_record__loaded_at", some "2023-01-01 00:00:00")] : Row))) :=
  C7_uid_semantics ["h"]
    [([("h", some "k|1"), ("_record__loaded_at", some "2023-01-01 00:00:00")] : Row)] 0
    ([("h", some "k|1"), ("_record__loaded_at", some "2023-01-01 00:00:00")] : Row)
    (by decide)

/-! ### C4: exactly one current row per partition -/

/-- The generated `_record__is_current` CASE expression evaluates to `1`
when the LEAD load value is NULL and to `0` otherwise. -/
theorem evalExpr_isCurrent (grain : List String) (part : List Row) (i : Nat) :
    evalExpr part i (isCurrentExpr grain)
      = if (leadLoadedAt part i).isNone then some "1" else some "0" := by
  show (if ((part.get? (i + 1)).bind (fun r => Row.get r "_record__loaded_at")).isNone
        then some (toString (1 : Int)) else some (toString (0 : Int)))
      = if (leadLoadedAt part i).isNone then some "1" else some "0"
  cases hb : (leadLoadedAt part i).isNone with
  | true =>
      have hb' : ((part.get? (i + 1)).bind
          (fun r => Row.get r "_record__loaded_at")).isNone = true := hb
      rw [hb']
      rfl
  | false =>
      have hb' : ((part.get? (i + 1)).bind
          (fun r => Row.get r "_record__loaded_at")).isNone = false := hb
      rw [hb']
      rfl

/-- The current flag tests exactly the absence of a LEAD load value. -/
theorem isCurrentRow_iff (grain : List String) (part : List Row) (i : Nat) :
    isCurrentRow grain part i = (leadLoadedAt part i).isNone := by
  unfold isCurrentRow
  rw [evalExpr_isCurrent]
  cases hb : (leadLoadedAt part i).isNone <;> rfl

/-- Counting positions of a list by a predicate on its optional
elements. -/
theorem countP_range_get (P : Option Row → Bool) (t : List Row) :
    (List.range t.length).countP (fun i => P (t.get? i))
      = t.countP (fun r => P (some r)) := by
  induction t with
  | nil => rfl
  | cons a t ih =>
      rw [List.length_cons, List.range_succ_eq_map, List.countP_cons, List.countP_map]
      have hcomp : List.countP ((fun i => P ((a :: t).get? i)) ∘ Nat.succ) (List.range t.length)
          = t.countP (fun r => P (some r)) := by
        rw [← ih]
        exact List.countP_congr (fun i _ => Iff.rfl)
      rw [hcomp, List.countP_cons]
      rfl

/-- The number of current-flagged rows of a nonempty partition is one
more than the number of NULL load timestamps in its tail. -/
theorem currentCount_cons (grain : List String) (p : Row) (t : List Row) :
    currentCount grain (p :: t)
      = t.countP (fun r => (Row.loadedAt r).isNone) + 1 := by
  unfold currentCount
  have hcong : (List.range (p :: t).length).countP (fun i => isCurrentRow grain (p :: t) i)
      = (List.range (p :: t).length).countP
          (fun i => ((t.get? i).bind (fun r => Row.get r "_record__loaded_at")).isNone) := by
    refine List.countP_congr (fun i _ => ?_)
    rw [isCurrentRow_iff]
    exact Iff.rfl
  rw [hcong, List.length_cons, List.range_succ, List.countP_append]
  have hlast : List.countP
      (fun i => ((t.get? i).bind (fun r => Row.get r "_record__loaded_at")).isNone)
      [t.length] = 1 := by
    have hnone : t.get? t.length = none := List.get?_eq_none.mpr (Nat.le_refl _)
    rw [List.countP_cons, List.countP_nil, hnone]
    rfl
  rw [hlast]
  have hmain := countP_range_get
    (fun o => (o.bind (fun r => Row.get r "_record__loaded_at")).isNone) t
  rw [hmain]
  exact congrArg (· + 1) (List.countP_congr (fun r _ => Iff.rfl))

/-- In a window-ordered partition with at most one NULL load timestamp,
the tail has none: NULLs sort first, so a NULL in the tail forces a
NULL at the head as well, contradicting the bound. -/
theorem tail_no_nulls (p : Row) (t : List Row)
    (hs : windowOrderedB (p :: t) = true)
    (hn : (p :: t).countP (fun r => (Row.loadedAt r).isNone) ≤ 1) :
    t.countP (fun r => (Row.loadedAt r).isNone) = 0 := by
  by_contra h
  have hpos : 0 < t.countP (fun r => (Row.loadedAt r).isNone) := Nat.pos_of_ne_zero h
  obtain ⟨r, hrt, hrnull⟩ := List.countP_pos_iff.mp hpos
  have hall : ∀ s ∈ t, tsLeB (Row.loadedAt p) (Row.loadedAt s) = true := by
    have hsplit := hs
    unfold windowOrderedB at hsplit
    rw [Bool.and_eq_true] at hsplit
    exact fun s hsmem => (List.all_eq_true.mp hsplit.1) s hsmem
  have hple := hall r hrt
  have hrn : Row.loadedAt r = none := Option.isNone_iff_eq_none.mp hrnull
  rw [hrn] at hple
  cases hp : Row.loadedAt p with
  | none =>
      have hcount : (p :: t).countP (fun r => (Row.loadedAt r).isNone)
          = t.countP (fun r => (Row.loadedAt r).isNone) + 1 := by
        rw [List.countP_cons, hp]
        rfl
      omega
  | some a =>
      rw [hp] at hple
      exact absurd hple (by simp [tsLeB])

/-- C4 (amended).  For every grain partition with at least one row, in
window order and with at most one NULL load timestamp, exactly one row
is flagged current, and the last row (the one with no following row) is
that row; two or more NULL load timestamps flag additional rows, as the
counterexample shows. -/
theorem C4_exactly_one_current (grain : List String) (part : List Row)
    (hs : windowOrderedB part = true) (hne : part ≠ [])
    (hn : part.countP (fun r => (Row.loadedAt r).isNone) ≤ 1) :
    currentCount grain part = 1
      ∧ isCurrentRow grain part (part.length - 1) = true := by
  cases part with
  | nil => exact absurd rfl hne
  | cons p t =>
      constructor
      · rw [currentCount_cons, tail_no_nulls p t hs hn]
      · rw [isCurrentRow_iff]
        have hnone : leadLoadedAt (p :: t) ((p :: t).length - 1) = none := by
          unfold leadLoadedAt
          have hoob : (p :: t).get? ((p :: t).length - 1 + 1) = none := by
            refine List.get?_eq_none.mpr ?_
            simp
          rw [hoob]
          rfl
        rw [hnone]
        rfl

/-- C4 witness: a two-row partition with distinct non-NULL load
timestamps has exactly one current row, the last one. -/
theorem C4_exactly_one_current_witness :
    currentCount ["h"] [c4Row "2023-01-01 00:00:00", c4Row "2023-01-02 00:00:00"] = 1
      ∧ isCurrentRow ["h"] [c4Row "2023-01-01 00:00:00", c4Row "2023-01-02 00:00:00"]
          (([c4Row "2023-01-01 00:00:00", c4Row "2023-01-02 00:00:00"] : List Row).length - 1)
        = true :=
  C4_exactly_one_current ["h"]
    [c4Row "2023-01-01 00:00:00", c4Row "2023-01-02 00:00:00"]
    (by decide) (by decide) (by decide)

/-- C4 counterexample.  A window-ordered nonempty partition whose first
two rows share an identical (NULL) load timestamp has two rows flagged
current: each row immediately preceding a NULL-loaded row also gets
`LEAD(_record__loaded_at) IS NULL`. -/
theorem C4_counterexample :
    windowOrderedB [c4RowNull, c4RowNull, c4Row "2023-01-03 00:00:00"] = true
      ∧ ([c4RowNull, c4RowNull, c4Row "2023-01-03 00:00:00"] : List Row) ≠ []
      ∧ currentCount ["h"] [c4RowNull, c4RowNull, c4Row "2023-01-03 00:00:00"] = 2 := by
  decide

/-! ### C8: duplicate hook names -/

/-- C8 (amended).  `build_hooks`/`build_hook_cte` perform no
duplicate-name validation and cannot fail: the projection contains one
aliased column per hook, in order, so two hooks with the same name yield
two projected columns with the same alias. -/
theorem C8_duplicate_aliases (ref : TableRef) (hooks : List HookSpec) (nm : String) :
    (build_hook_cte ref hooks).projections.countP (fun e => aliasName e == some nm)
      = hooks.countP (fun h => h.name == nm) := by
  simp only [build_hook_cte, build_hooks, List.countP_append, List.countP_map]
  have hstar : List.countP (fun e => aliasName e == some nm) [SqlExpr.star] = 0 := by
    simp [aliasName]
  rw [hstar, Nat.add_zero]
  exact List.countP_congr (fun h _ => Iff.rfl)

/-- C8 counterexample.  Two hooks named `h` are silently projected as
two columns both aliased `h`; no naming-conflict error exists in the
builder (it is a total function into projections). -/
theorem C8_counterexample :
    (build_hook_cte ordersRef [⟨"h", "k1", "a"⟩, ⟨"h", "k2", "b"⟩]).projections.countP
        (fun e => aliasName e == some "h") = 2
      ∧ (build_hook_cte ordersRef [⟨"h", "k1", "a"⟩, ⟨"h", "k2", "b"⟩]).projections.length
        = 3 := by
  constructor <;> rfl

/-! ### The manifest-compiler layer: shared lemmas -/

/-- `Except.map` preserves success. -/
theorem exceptOk_map {ε α β : Type} (f : α → β) (e : Except ε α) :
    exceptOk (Except.map f e) = exceptOk e := by
  cases e <;> rfl

/-- The `is True` identity test holds exactly for the Python boolean
`True`. -/
theorem managedIsTrue_iff (v : Option PyVal) :
    managedIsTrue v = true ↔ v = some (.vBool true) := by
  cases v with
  | none => simp [managedIsTrue]
  | some pv =>
      cases pv with
      | vNone => simp [managedIsTrue]
      | vBool b => cases b <;> simp [managedIsTrue]
      | vInt n => simp [managedIsTrue]
      | vStr s => simp [managedIsTrue]

/-- Compiling an entry whose `managed` fails the identity test: no hook
query, bridge and peripheral over the named hook target location. -/
theorem compileEntry_unmanaged (o : BuildOpts) (full : List (String × TableSpec))
    (t : String) (spec : TableSpec) (hm : managedIsTrue spec.managed? = false) :
    compileEntry o full t spec = .ok
      ⟨⟨o.hook_target_db, o.hook_target_schema, t, none⟩,
       ⟨o.uss_target_db, o.uss_target_schema, "_bridge__" ++ t,
        some (Query.bridgeQ (build_bridge_query full
          ⟨t, some o.hook_target_schema, some o.hook_target_db⟩))⟩,
       ⟨o.uss_target_db, o.uss_target_schema, t,
        some (Query.peripheralQ (build_peripheral_query
          ⟨t, some o.hook_target_schema, some o.hook_target_db⟩
          (spec.columns?.getD [])))⟩⟩ := by
  simp [compileEntry, hm, Except.map]

/-- Compiling a managed entry whose required keys are present. -/
theorem compileEntry_managed (o : BuildOpts) (full : List (String × TableSpec))
    (t : String) (spec : TableSpec) (tb sch db : String)
    (hm : managedIsTrue spec.managed? = true) (htb : spec.table? = some tb)
    (hsch : spec.schema? = some sch) (hdb : spec.database? = some db) :
    compileEntry o full t spec = .ok
      ⟨⟨o.hook_target_db, o.hook_target_schema, t,
        some (Query.hookQ (build_hook_query ⟨tb, some sch, some db⟩
          (spec.hooks?.getD []) (spec.grain?.getD [])))⟩,
       ⟨o.uss_target_db, o.uss_target_schema, "_bridge__" ++ t,
        some (Query.bridgeQ (build_bridge_query full
          ⟨t, some o.hook_target_schema, some o.hook_target_db⟩))⟩,
       ⟨o.uss_target_db, o.uss_target_schema, t,
        some (Query.peripheralQ (build_peripheral_query
          ⟨t, some o.hook_target_schema, some o.hook_target_db⟩
          (spec.columns?.getD [])))⟩⟩ := by
  simp [compileEntry, hm, htb, hsch, hdb, keyOr, Except.bind, Except.map]

/-- A successful compilation determines, for every manifest entry, the
artifact set found under the entry's table name: it is the one
`compileEntry` yields for that entry. -/
theorem buildQueriesGo_lookup (o : BuildOpts) (full : List (String × TableSpec)) :
    ∀ (l : List (String × TableSpec)) (res : List (String × CompiledArtifactSet))
      (t : String) (spec : TableSpec),
      buildQueriesGo o full l = .ok res → alookup t l = some spec →
      ∃ set, alookup t res = some set ∧ compileEntry o full t spec = .ok set := by
  intro l
  induction l with
  | nil => intro res t spec _hok hl; simp [alookup] at hl
  | cons e rest ih =>
      intro res t spec hok hl
      obtain ⟨t', spec'⟩ := e
      cases hce : compileEntry o full t' spec' with
      | error err =>
          rw [buildQueriesGo, hce] at hok
          simp [Except.bind] at hok
      | ok set1 =>
          rw [buildQueriesGo, hce] at hok
          cases hrest : buildQueriesGo o full rest with
          | error err =>
              rw [hrest] at hok
              simp [Except.bind, Except.map] at hok
          | ok tail =>
              rw [hrest] at hok
              have hres : res = (t', set1) :: tail := by
                simp [Except.bind, Except.map] at hok
                exact hok.symm
              subst hres
              by_cases hteq : t = t'
              · subst hteq
                have hspec : spec' = spec := by
                  simp [alookup] at hl
                  exact hl
                subst hspec
                exact ⟨set1, by simp [alookup], hce⟩
              · have hl' : alookup t rest = some spec := by
                  simp [alookup, hteq] at hl
                  exact hl
                obtain ⟨s2, hs2, hcs2⟩ := ih tail t spec hrest hl'
                refine ⟨s2, ?_, hcs2⟩
                simp [alookup, hteq, hs2]

/-- A failing entry anywhere in the manifest makes the whole
compilation fail: the loop raises and no per-table isolation exists. -/
theorem buildQueriesGo_error (o : BuildOpts) (full : List (String × TableSpec))
    (t : String) (spec : TableSpec) :
    ∀ (l : List (String × TableSpec)), (t, spec) ∈ l →
      exceptOk (compileEntry o full t spec) = false →
      exceptOk (buildQueriesGo o full l) = false := by
  intro l
  induction l with
  | nil => intro hmem _hbad; exact absurd hmem (List.not_mem_nil _)
  | cons e rest ih =>
      intro hmem hbad
      obtain ⟨t', spec'⟩ := e
      rcases List.mem_cons.mp hmem with heq | hmem'
      · cases heq
        cases hce : compileEntry o full t spec with
        | error err => simp [buildQueriesGo, hce, Except.bind, exceptOk]
        | ok s => rw [hce] at hbad; simp [exceptOk] at hbad
      · cases hce : compileEntry o full t' spec' with
        | error err => simp [buildQueriesGo, hce, Except.bind, exceptOk]
        | ok s =>
            have hrec := ih hmem' hbad
            cases hrest : buildQueriesGo o full rest with
            | error err =>
                simp [buildQueriesGo, hce, hrest, Except.bind, Except.map, exceptOk]
            | ok tail =>
                rw [hrest] at hrec
                simp [exceptOk] at hrec

/-! ### C1: the managed hook artifact -/

/-- C1 (amended).  For every successfully compiled manifest and every
entry whose `managed` is exactly the boolean `True` (with its required
keys present, a nonempty grain and non-empty hook expressions, the
preconditions of the real text-level parse), the hook artifact is bound
to `(hook_target_db, hook_target_schema, table_name)` and its query is
the two-stage composed query of §4.4 built from the entry's source
reference, hooks and grain — hook projection stage, then validity-window
stage over `cte__hook` — with the always-true `1=1` filter:
`build_queries` passes no bounds and accepts no `start_ts`/`end_ts`
options, so time filtering is never engaged at this layer. -/
theorem C1_managed_hook_query (m : List (String × TableSpec)) (o : BuildOpts)
    (res : List (String × CompiledArtifactSet)) (t : String) (spec : TableSpec)
    (set : CompiledArtifactSet) (tb sch db : String)
    (h1 : buildQueries m o = .ok res) (h2 : alookup t m = some spec)
    (h3 : alookup t res = some set) (h4 : managedIsTrue spec.managed? = true)
    (h5 : spec.table? = some tb) (h6 : spec.schema? = some sch)
    (h7 : spec.database? = some db)
    (_h8 : spec.grain?.getD [] ≠ [])
    (_h9 : ∀ hk ∈ spec.hooks?.getD [], hk.expression ≠ "") :
    set.hook = ⟨o.hook_target_db, o.hook_target_schema, t,
        some (Query.hookQ (build_hook_query ⟨tb, some sch, some db⟩
          (spec.hooks?.getD []) (spec.grain?.getD [])))⟩
      ∧ build_hook_query ⟨tb, some sch, some db⟩ (spec.hooks?.getD []) (spec.grain?.getD [])
        = build_query ⟨tb, some sch, some db⟩ (spec.hooks?.getD []) (spec.grain?.getD [])
            "_record__updated_at" none none
      ∧ (build_hook_query ⟨tb, some sch, some db⟩ (spec.hooks?.getD [])
          (spec.grain?.getD [])).cteHook
        = build_hook_cte ⟨tb, some sch, some db⟩ (spec.hooks?.getD [])
      ∧ (build_hook_query ⟨tb, some sch, some db⟩ (spec.hooks?.getD [])
          (spec.grain?.getD [])).cteValidity
        = build_validity_cte ⟨"cte__hook", none, none⟩ (spec.grain?.getD [])
      ∧ (build_hook_query ⟨tb, some sch, some db⟩ (spec.hooks?.getD [])
          (spec.grain?.getD [])).whereFilter = .intEq 1 1 := by
  obtain ⟨set', hs', hce⟩ := buildQueriesGo_lookup o m m res t spec h1 h2
  have hset : set' = set := by
    rw [hs'] at h3
    exact Option.some.inj h3
  subst hset
  have hbig := compileEntry_managed o m t spec tb sch db h4 h5 h6 h7
  rw [hce] at hbig
  have hset2 := Except.ok.inj hbig
  exact ⟨by rw [hset2], rfl, rfl, rfl, rfl⟩

/-- C1 witness: the concrete one-table managed manifest compiles to the
claimed hook artifact under the default options. -/
theorem C1_managed_hook_query_witness :
    c1Set.hook = ⟨defaultOpts.hook_target_db, defaultOpts.hook_target_schema,
        "northwind__orders",
        some (Query.hookQ (build_hook_query ⟨"orders", some "northwind", some "bronze"⟩
          (c1Spec.hooks?.getD []) (c1Spec.grain?.getD [])))⟩
      ∧ build_hook_query ⟨"orders", some "northwind", some "bronze"⟩
          (c1Spec.hooks?.getD []) (c1Spec.grain?.getD [])
        = build_query ⟨"orders", some "northwind", some "bronze"⟩
            (c1Spec.hooks?.getD []) (c1Spec.grain?.getD [])
            "_record__updated_at" none none
      ∧ (build_hook_query ⟨"orders", some "northwind", some "bronze"⟩
          (c1Spec.hooks?.getD []) (c1Spec.grain?.getD [])).cteHook
        = build_hook_cte ⟨"orders", some "northwind", some "bronze"⟩
            (c1Spec.hooks?.getD [])
      ∧ (build_hook_query ⟨"orders", some "northwind", some "bronze"⟩
          (c1Spec.hooks?.getD []) (c1Spec.grain?.getD [])).cteValidity
        = build_validity_cte ⟨"cte__hook", none, none⟩ (c1Spec.grain?.getD [])
      ∧ (build_hook_query ⟨"orders", some "northwind", some "bronze"⟩
          (c1Spec.hooks?.getD []) (c1Spec.grain?.getD [])).whereFilter
        = .intEq 1 1 :=
  C1_managed_hook_query c1Manifest defaultOpts c1Res "northwind__orders" c1Spec c1Set
    "orders" "northwind" "bronze" rfl rfl rfl rfl rfl rfl rfl (by decide) (by decide)

/-- C1 counterexample.  Over the concrete managed manifest, the hook
query's filter is the tautology `1=1` for every option `build_queries`
accepts — the orchestration layer has no `start_ts`/`end_ts` pass-through
options, so the BETWEEN time filter of §4.4 can never be engaged from
it, falsifying the claim's pass-through clause. -/
theorem C1_counterexample :
    c1Filter = (fun _ => some (SqlExpr.intEq 1 1))
      ∧ SqlExpr.intEq 1 1
        ≠ SqlExpr.between (.col "_record__updated_at")
            (.castDT "2023-01-01 00:00:00") (.castDT "2023-01-02 00:00:00") :=
  ⟨funext (fun _ => rfl), fun hfalse => SqlExpr.noConfusion hfalse⟩

/-! ### C6: error behaviour on malformed specs -/

/-- C6 (amended).  A managed entry missing its `table` key makes
`compileEntry` raise a key error; any failing entry aborts the whole
compilation (no per-table isolation); a managed entry with all three
location keys present never fails, in particular one with an empty hook
list is compiled without any error. -/
theorem C6_error_behavior (o : BuildOpts) (full m : List (String × TableSpec))
    (t : String) (spec : TableSpec) (tb sch db : String) :
    (managedIsTrue spec.managed? = true → spec.table? = none →
        compileEntry o full t spec = .error (.keyErr "table"))
      ∧ ((t, spec) ∈ m → exceptOk (compileEntry o m t spec) = false →
          exceptOk (buildQueries m o) = false)
      ∧ (managedIsTrue spec.managed? = true → spec.table? = some tb →
          spec.schema? = some sch → spec.database? = some db →
          exceptOk (compileEntry o full t spec) = true) := by
  refine ⟨?_, ?_, ?_⟩
  · intro hm ht
    simp [compileEntry, hm, ht, keyOr, Except.bind, Except.map]
  · intro hmem hbad
    exact buildQueriesGo_error o m t spec m hmem hbad
  · intro hm htb hsch hdb
    rw [compileEntry_managed o full t spec tb sch db hm htb hsch hdb]
    rfl

/-- C6 witness: the malformed entry of `c6Manifest` raises the key
error, the whole compilation fails because of it, and the no-hooks
managed entry compiles without error. -/
theorem C6_error_behavior_witness :
    compileEntry defaultOpts c6Manifest "bad_table" c6Bad = .error (.keyErr "table")
      ∧ exceptOk (buildQueries c6Manifest defaultOpts) = false
      ∧ exceptOk (compileEntry defaultOpts c6Manifest "no_hooks" c6NoHooks) = true :=
  ⟨(C6_error_behavior defaultOpts c6Manifest c6Manifest "bad_table" c6Bad
      "x" "x" "x").1 rfl rfl,
   (C6_error_behavior defaultOpts c6Manifest c6Manifest "bad_table" c6Bad
      "x" "x" "x").2.1 (by decide)
     (by rw [(C6_error_behavior defaultOpts c6Manifest c6Manifest "bad_table" c6Bad
         "x" "x" "x").1 rfl rfl]; rfl),
   (C6_error_behavior defaultOpts c6Manifest c6Manifest "no_hooks" c6NoHooks
      "empty" "northwind" "bronze").2.2 rfl rfl rfl rfl⟩

/-- C6 counterexample.  The manifest `[good_table, bad_table]` — whose
first entry is well formed and managed — compiles to a single global
`KeyError`, so the well-formed table's artifact set is lost too, and the
managed no-hooks entry is accepted silently, its hook stage projecting
no hook columns at all: both halves of the claimed per-table error
behaviour fail on the code. -/
theorem C6_counterexample :
    buildQueries c6Manifest defaultOpts = .error (.keyErr "table")
      ∧ managedIsTrue c1Spec.managed? = true
      ∧ c1Spec.table? = some "orders"
      ∧ exceptOk (buildQueries [("no_hooks_table", c6NoHooks)] defaultOpts) = true
      ∧ (build_hook_cte ordersRef []).projections = [SqlExpr.star] := by
  refine ⟨rfl, rfl, rfl, rfl, rfl⟩

/-! ### C9: unmanaged tables -/

/-- C9.  For every successfully compiled manifest and every entry with
`managed = False`, the hook descriptor carries the hook target names
with an absent query, and the bridge and peripheral descriptors are
produced with queries reading from the named hook target location
`hook_target_db.hook_target_schema.<table_name>`, targeted at
`(uss_target_db, uss_target_schema, "_bridge__" ++ table_name)` and
`(uss_target_db, uss_target_schema, table_name)` respectively. -/
theorem C9_unmanaged_artifacts (m : List (String × TableSpec)) (o : BuildOpts)
    (res : List (String × CompiledArtifactSet)) (t : String) (spec : TableSpec)
    (set : CompiledArtifactSet)
    (h1 : buildQueries m o = .ok res) (h2 : alookup t m = some spec)
    (h3 : alookup t res = some set)
    (h4 : spec.managed? = some (PyVal.vBool false)) :
    set.hook = ⟨o.hook_target_db, o.hook_target_schema, t, none⟩
      ∧ set.uss_bridge = ⟨o.uss_target_db, o.uss_target_schema, "_bridge__" ++ t,
          some (Query.bridgeQ (build_bridge_query m
            ⟨t, some o.hook_target_schema, some o.hook_target_db⟩))⟩
      ∧ set.uss_peripheral = ⟨o.uss_target_db, o.uss_target_schema, t,
          some (Query.peripheralQ (build_peripheral_query
            ⟨t, some o.hook_target_schema, some o.hook_target_db⟩
            (spec.columns?.getD [])))⟩ := by
  obtain ⟨set', hs', hce⟩ := buildQueriesGo_lookup o m m res t spec h1 h2
  have hset : set' = set := by
    rw [hs'] at h3
    exact Option.some.inj h3
  subst hset
  have hm : managedIsTrue spec.managed? = false := by rw [h4]; rfl
  have hun := compileEntry_unmanaged o m t spec hm
  rw [hce] at hun
  have hset2 := Except.ok.inj hun
  exact ⟨by rw [hset2], by rw [hset2], by rw [hset2]⟩

/-- C9 witness: the concrete unmanaged one-table manifest compiles to
the claimed descriptors under the default options. -/
theorem C9_unmanaged_artifacts_witness :
    c9Set.hook = ⟨defaultOpts.hook_target_db, defaultOpts.hook_target_schema,
        "northwind__customers", none⟩
      ∧ c9Set.uss_bridge = ⟨defaultOpts.uss_target_db, defaultOpts.uss_target_schema,
          "_bridge__" ++ "northwind__customers",
          some (Query.bridgeQ (build_bridge_query c9Manifest
            ⟨"northwind__customers", some defaultOpts.hook_target_schema,
             some defaultOpts.hook_target_db⟩))⟩
      ∧ c9Set.uss_peripheral = ⟨defaultOpts.uss_target_db, defaultOpts.uss_target_schema,
          "northwind__customers",
          some (Query.peripheralQ (build_peripheral_query
            ⟨"northwind__customers", some defaultOpts.hook_target_schema,
             some defaultOpts.hook_target_db⟩ (c9Spec.columns?.getD [])))⟩ :=
  C9_unmanaged_artifacts c9Manifest defaultOpts c9Res "northwind__customers" c9Spec c9Set
    rfl rfl rfl rfl

/-! ### C10: the exact-True managed test -/

/-- C10.  For every successfully compiled manifest entry (with the
real-parse preconditions on grain and hook expressions), the hook
descriptor's query is present if and only if the entry's `managed` value
is exactly the Python boolean `True`; and whenever the identity test
fails — truthy `1`, string `"true"`, `False`, `None` or an absent key —
the entry compiles without any error (and hence with a null hook
query). -/
theorem C10_managed_iff (m : List (String × TableSpec)) (o : BuildOpts)
    (res : List (String × CompiledArtifactSet)) (t : String) (spec : TableSpec)
    (set : CompiledArtifactSet)
    (h1 : buildQueries m o = .ok res) (h2 : alookup t m = some spec)
    (h3 : alookup t res = some set)
    (_h4 : spec.grain?.getD [] ≠ [])
    (_h5 : ∀ hk ∈ spec.hooks?.getD [], hk.expression ≠ "") :
    (set.hook.query ≠ none ↔ spec.managed? = some (PyVal.vBool true))
      ∧ (managedIsTrue spec.managed? = false →
          exceptOk (compileEntry o m t spec) = true) := by
  obtain ⟨set', hs', hce⟩ := buildQueriesGo_lookup o m m res t spec h1 h2
  have hset : set' = set := by
    rw [hs'] at h3
    exact Option.some.inj h3
  subst hset
  cases hm : managedIsTrue spec.managed? with
  | false =>
      have hun := compileEntry_unmanaged o m t spec hm
      rw [hce] at hun
      have hset2 := Except.ok.inj hun
      constructor
      · constructor
        · intro hq
          exact absurd (by rw [hset2]) hq
        · intro hmt
          rw [hmt] at hm
          exact absurd hm (by simp [managedIsTrue])
      · intro _
        rw [compileEntry_unmanaged o m t spec hm]
        rfl
  | true =>
      cases htb : spec.table? with
      | none =>
          have hbad : compileEntry o m t spec = .error (.keyErr "table") := by
            simp [compileEntry, hm, htb, keyOr, Except.bind, Except.map]
          rw [hce] at hbad
          exact absurd hbad (fun hfalse => Except.noConfusion hfalse)
      | some tb =>
          cases hsch : spec.schema? with
          | none =>
              have hbad : compileEntry o m t spec = .error (.keyErr "schema") := by
                simp [compileEntry, hm, htb, hsch, keyOr, Except.bind, Except.map]
              rw [hce] at hbad
              exact absurd hbad (fun hfalse => Except.noConfusion hfalse)
          | some sch =>
              cases hdb : spec.database? with
              | none =>
                  have hbad : compileEntry o m t spec = .error (.keyErr "database") := by
                    simp [compileEntry, hm, htb, hsch, hdb, keyOr, Except.bind, Except.map]
                  rw [hce] at hbad
                  exact absurd hbad (fun hfalse => Except.noConfusion hfalse)
              | some db =>
                  have hbig := compileEntry_managed o m t spec tb sch db hm htb hsch hdb
                  rw [hce] at hbig
                  have hset2 := Except.ok.inj hbig
                  constructor
                  · constructor
                    · intro _
                      exact (managedIsTrue_iff spec.managed?).mp hm
                    · intro _
                      rw [hset2]
                      simp
                  · intro hfalse
                    exact absurd hfalse (by simp)

/-- C10 witness: a concrete entry whose `managed` is the truthy integer
`1` compiles without error to a hook descriptor with a null query. -/
theorem C10_managed_iff_witness :
    (c10Set.hook.query ≠ none ↔ c10Spec.managed? = some (PyVal.vBool true))
      ∧ (managedIsTrue c10Spec.managed? = false →
          exceptOk (compileEntry defaultOpts c10Manifest "northwind__regions" c10Spec)
            = true) :=
  C10_managed_iff c10Manifest defaultOpts c10Res "northwind__regions" c10Spec c10Set
    rfl rfl rfl (by decide) (by decide)
